import Mathlib

/-!
Verification of the global endpoint manager of the Azure Cosmos async client
(`sdk/cosmos/azure-cosmos/azure/cosmos/aio/_global_endpoint_manager_async.py`).

The manager's own state (`startup`, `refresh_task`, `refresh_needed`,
`last_refresh_time`, `_database_account_cache`) is embedded directly as a
Lean structure.  The `LocationCache` collaborator lives in a file that is
not part of this repository snapshot; every call the manager makes into it
is therefore recorded as an observable event in a trace, and its three
opaque inputs are passed as parameters:
  * `getLoc` stands for the pure static `LocationCache.GetLocationalEndpoint`,
  * `epsToCheck` stands for the result of `location_cache.endpoints_to_health_check()`,
  * `shouldRefresh` stands for the result of `location_cache.should_refresh_endpoints()`.
Likewise the network collaborators `client.GetDatabaseAccount` and
`client._GetDatabaseAccountCheck` are parameters `fetch` / `fetchCheck`,
`current_time_millis()` is the parameter `now`, and `asyncio.create_task`
produces a task handle carrying a fresh id supplied as the parameter `tid`.
A Python exception of the caught classes is modelled as `none` / `false`
from these parameters; a propagated exception is a `false` first component
of the result.
-/

/-- Account topology snapshot (`DatabaseAccount`); its contents are opaque to
the manager, so it is modelled as a bare identifier. -/
structure DatabaseAccount where
  ident : Nat
  deriving DecidableEq

/-- Observable calls the manager makes into the location cache, the logger and
the task machinery, in program order. -/
inductive ObsEvent where
  | markUnavailableRead (endpoint : String) (refreshCache : Bool)
  | markUnavailableWrite (endpoint : String) (refreshCache : Bool)
  | markAvailable (endpoint : String)
  | performOnDatabaseAccountRead (acct : DatabaseAccount)
  | updateLocationCache
  | taskCreated (tid : Nat)
  | logException
  deriving DecidableEq

/-- Status of an asyncio task as observed through `task.done()` / `await`. -/
inductive TaskStatus where
  | running
  | doneOk
  | doneErr
  deriving DecidableEq

/-- An asyncio task handle: an identity plus its observable status. -/
structure AsyncTask where
  tid : Nat
  status : TaskStatus
  deriving DecidableEq

/-- State of `_GlobalEndpointManager` (the fields its `__init__` sets, minus
the collaborator objects, plus the event trace standing for the location
cache and logger calls). -/
structure GEMState where
  PreferredLocations : List String
  DefaultEndpoint : String
  refresh_time_interval_in_ms : Nat
  startup : Bool
  refresh_task : Option AsyncTask
  refresh_needed : Bool
  last_refresh_time : Nat
  database_account_cache : Option DatabaseAccount
  events : List ObsEvent
  deriving DecidableEq

/-- `__init__` (lines 49-63): `startup = True`, `refresh_task = None`,
`refresh_needed = False`, `last_refresh_time = 0`,
`_database_account_cache = None`. -/
def initManager (preferredLocations : List String) (defaultEndpoint : String)
    (interval : Nat) : GEMState :=
  { PreferredLocations := preferredLocations
    DefaultEndpoint := defaultEndpoint
    refresh_time_interval_in_ms := interval
    startup := true
    refresh_task := none
    refresh_needed := false
    last_refresh_time := 0
    database_account_cache := none
    events := [] }

/-- `mark_endpoint_unavailable_for_read` (lines 80-81): delegates to the
location cache, forwarding the `refresh_cache` flag; touches no manager
field. -/
def mark_endpoint_unavailable_for_read (s : GEMState) (endpoint : String)
    (refresh_cache : Bool) : GEMState :=
  { s with events := s.events ++ [ObsEvent.markUnavailableRead endpoint refresh_cache] }

/-- `mark_endpoint_unavailable_for_write` (lines 83-84): delegates to the
location cache, forwarding the `refresh_cache` flag; touches no manager
field. -/
def mark_endpoint_unavailable_for_write (s : GEMState) (endpoint : String)
    (refresh_cache : Bool) : GEMState :=
  { s with events := s.events ++ [ObsEvent.markUnavailableWrite endpoint refresh_cache] }

/-- Marking one endpoint unavailable for read then write, as the except
blocks of `_GetDatabaseAccount` and `_database_account_check` do. -/
def markUnavailableRW (s : GEMState) (endpoint : String) : GEMState :=
  mark_endpoint_unavailable_for_write
    (mark_endpoint_unavailable_for_read s endpoint false) endpoint false

/-- Fallback loop of `_GetDatabaseAccount` (lines 190-200): walk the
preferred locations in order, derive each locational endpoint, return on the
first successful fetch, mark each failure unavailable for read and write,
re-raise when the list is exhausted. -/
def GetDatabaseAccountFallback (fetch : String → Option DatabaseAccount)
    (getLoc : String → String → String) :
    List String → GEMState → Option (DatabaseAccount × String) × GEMState
  | [], s => (none, s)
  | loc :: rest, s =>
    let ep := getLoc s.DefaultEndpoint loc
    match fetch ep with
    | some acct =>
        (some (acct, ep),
         { s with database_account_cache := some acct
                  events := s.events ++ [ObsEvent.markAvailable ep] })
    | none => GetDatabaseAccountFallback fetch getLoc rest (markUnavailableRW s ep)

/-- `_GetDatabaseAccount` (lines 166-200): try the default endpoint first;
on success cache the account and mark the endpoint available; on failure
mark the default endpoint unavailable for read and write and fall back to
the preferred locations. -/
def GetDatabaseAccount (fetch : String → Option DatabaseAccount)
    (getLoc : String → String → String) (s : GEMState) :
    Option (DatabaseAccount × String) × GEMState :=
  match fetch s.DefaultEndpoint with
  | some acct =>
      (some (acct, s.DefaultEndpoint),
       { s with database_account_cache := some acct
                events := s.events ++ [ObsEvent.markAvailable s.DefaultEndpoint] })
  | none =>
      GetDatabaseAccountFallback fetch getLoc s.PreferredLocations
        (markUnavailableRW s s.DefaultEndpoint)

/-- The pair of events recorded when an endpoint is marked unavailable for
read and write with `refresh_cache = False`. -/
def unavailRW (endpoint : String) : List ObsEvent :=
  [ObsEvent.markUnavailableRead endpoint false, ObsEvent.markUnavailableWrite endpoint false]

/-- Events of a run of the fallback loop over the given locations when every
one of them fails. -/
def unavailTrail (getLoc : String → String → String) (dflt : String) :
    List String → List ObsEvent
  | [] => []
  | loc :: rest => unavailRW (getLoc dflt loc) ++ unavailTrail getLoc dflt rest

/-- `_database_account_check` (lines 140-146): probe one endpoint with
`_GetDatabaseAccountCheck`; success marks it available, a caught failure
marks it unavailable for read and write; nothing is raised. -/
def database_account_check (fetchCheck : String → Bool) (s : GEMState)
    (endpoint : String) : GEMState :=
  if fetchCheck endpoint then
    { s with events := s.events ++ [ObsEvent.markAvailable endpoint] }
  else
    markUnavailableRW s endpoint

/-- `_endpoints_health_check` (lines 148-164): fetch the account (raising if
every candidate fails), feed it to the location cache, probe every remaining
candidate endpoint, then update the location cache.  The `Bool` component is
`false` when the topology fetch raised (the marks it made persist). -/
def endpoints_health_check (fetch : String → Option DatabaseAccount)
    (fetchCheck : String → Bool) (getLoc : String → String → String)
    (epsToCheck : List String) (s : GEMState) : Bool × GEMState :=
  match GetDatabaseAccount fetch getLoc s with
  | (none, s1) => (false, s1)
  | (some (acct, attempted), s1) =>
    let s2 := { s1 with
      events := s1.events ++ [ObsEvent.performOnDatabaseAccountRead acct] }
    let s3 := (epsToCheck.filter (fun e => e ≠ attempted)).foldl
      (database_account_check fetchCheck) s2
    (true, { s3 with events := s3.events ++ [ObsEvent.updateLocationCache] })

/-- Slow path of `_refresh_endpoint_list_private` (lines 127-138): when the
cache heuristic or `refresh_needed` demands a refresh, clear
`refresh_needed`, stamp `last_refresh_time`, then either launch the health
check as a background task (not in startup) or run it inline and clear
`startup` on success (in startup). -/
def refreshSlowPath (now tid : Nat)
    (fetch : String → Option DatabaseAccount) (fetchCheck : String → Bool)
    (getLoc : String → String → String) (epsToCheck : List String)
    (shouldRefresh : Bool) (s : GEMState) : Bool × GEMState :=
  if shouldRefresh || s.refresh_needed then
    let s1 := { s with refresh_needed := false, last_refresh_time := now }
    if s.startup = false then
      (true, { s1 with
        refresh_task := some { tid := tid, status := TaskStatus.running }
        events := s1.events ++ [ObsEvent.taskCreated tid] })
    else
      match endpoints_health_check fetch fetchCheck getLoc epsToCheck s1 with
      | (true, s2) => (true, { s2 with startup := false })
      | (false, s2) => (false, s2)
  else
    (true, s)

/-- `_refresh_endpoint_list_private` (lines 122-138): fast path applies a
supplied snapshot when not in startup; otherwise, when the cache heuristic
or `refresh_needed` demands it, clear `refresh_needed`, stamp
`last_refresh_time`, and run the health check in the background (a new task,
id `tid`) when not in startup, or inline (clearing `startup` on success)
when in startup. -/
def refresh_endpoint_list_private (now tid : Nat)
    (fetch : String → Option DatabaseAccount) (fetchCheck : String → Bool)
    (getLoc : String → String → String) (epsToCheck : List String)
    (shouldRefresh : Bool) (dba : Option DatabaseAccount) (s : GEMState) :
    Bool × GEMState :=
  match dba with
  | some acct =>
    if s.startup = false then
      (true, { s with
        events := s.events ++ [ObsEvent.performOnDatabaseAccountRead acct]
        refresh_needed := false
        last_refresh_time := now })
    else
      refreshSlowPath now tid fetch fetchCheck getLoc epsToCheck shouldRefresh s
  | none => refreshSlowPath now tid fetch fetchCheck getLoc epsToCheck shouldRefresh s

/-- Step 1 of `refresh_endpoint_list` (lines 104-109): when a previous task
exists and is done, await it; on success the handle is set to `None`; on an
exception the exception is logged and the handle is left as it was (the
assignment to `None` sits after the `await` inside the `try`). -/
def harvestTask (s : GEMState) : GEMState :=
  match s.refresh_task with
  | some t =>
    match t.status with
    | TaskStatus.doneOk => { s with refresh_task := none }
    | TaskStatus.doneErr => { s with events := s.events ++ [ObsEvent.logException] }
    | TaskStatus.running => s
  | none => s

/-- Step 2 of `refresh_endpoint_list` (lines 110-111): when the elapsed time
since `last_refresh_time` strictly exceeds the refresh interval, set
`refresh_needed`. -/
def staleCheck (now : Nat) (s : GEMState) : GEMState :=
  if s.refresh_time_interval_in_ms < now - s.last_refresh_time
  then { s with refresh_needed := true } else s

/-- `refresh_endpoint_list` (lines 103-120): harvest a finished task, set
`refresh_needed` when the staleness interval has elapsed, then, when
`refresh_needed`, take the lock, re-check `refresh_needed`, and run the
private refresh (re-raising its error). -/
def refresh_endpoint_list (now tid : Nat)
    (fetch : String → Option DatabaseAccount) (fetchCheck : String → Bool)
    (getLoc : String → String → String) (epsToCheck : List String)
    (shouldRefresh : Bool) (dba : Option DatabaseAccount) (s : GEMState) :
    Bool × GEMState :=
  let s2 := staleCheck now (harvestTask s)
  if s2.refresh_needed then
    if s2.refresh_needed = false then
      (true, s2)
    else
      refresh_endpoint_list_private now tid fetch fetchCheck getLoc epsToCheck
        shouldRefresh dba s2
  else
    (true, s2)

/-- `force_refresh_on_startup` (lines 95-98): set `refresh_needed`, await
`refresh_endpoint_list`, then clear `startup`; when the refresh raises, the
final assignment is skipped and the error propagates. -/
def force_refresh_on_startup (now tid : Nat)
    (fetch : String → Option DatabaseAccount) (fetchCheck : String → Bool)
    (getLoc : String → String → String) (epsToCheck : List String)
    (shouldRefresh : Bool) (dba : Option DatabaseAccount) (s : GEMState) :
    Bool × GEMState :=
  match refresh_endpoint_list now tid fetch fetchCheck getLoc epsToCheck
      shouldRefresh dba { s with refresh_needed := true } with
  | (true, s1) => (true, { s1 with startup := false })
  | (false, s1) => (false, s1)

/-- The body one caller of `refresh_endpoint_list` runs once it holds the
refresh lock (lines 113-120): re-check `refresh_needed`, return at once when
it is already false, otherwise run the private refresh.  The `Bool` records
whether this caller executed the private refresh. -/
def lockedRefreshSection (now tid : Nat)
    (fetch : String → Option DatabaseAccount) (fetchCheck : String → Bool)
    (getLoc : String → String → String) (epsToCheck : List String)
    (shouldRefresh : Bool) (dba : Option DatabaseAccount) (s : GEMState) :
    Bool × GEMState :=
  if s.refresh_needed then
    (true,
     (refresh_endpoint_list_private now tid fetch fetchCheck getLoc epsToCheck
        shouldRefresh dba s).snd)
  else
    (false, s)

/-- N concurrent callers of `refresh_endpoint_list` that have all passed the
outer `refresh_needed` check and queue on the `asyncio.Lock`: the lock
serializes their critical sections, here in queue order with fresh task ids.
Returns the per-caller executed flags in order and the final state. -/
def concurrentSections (now : Nat)
    (fetch : String → Option DatabaseAccount) (fetchCheck : String → Bool)
    (getLoc : String → String → String) (epsToCheck : List String)
    (shouldRefresh : Bool) (dba : Option DatabaseAccount) :
    Nat → Nat → GEMState → List Bool × GEMState
  | 0, _, s => ([], s)
  | n + 1, tid, s =>
    let p := lockedRefreshSection now tid fetch fetchCheck getLoc epsToCheck
      shouldRefresh dba s
    let q := concurrentSections now fetch fetchCheck getLoc epsToCheck
      shouldRefresh dba n (tid + 1) p.snd
    (p.fst :: q.fst, q.snd)

/-- Events one probe of the concurrent batch records, determined solely by
that endpoint's own outcome. -/
def probeEvents (fetchCheck : String → Bool) (endpoint : String) : List ObsEvent :=
  if fetchCheck endpoint then [ObsEvent.markAvailable endpoint]
  else unavailRW endpoint

/-- Concatenated events of the whole concurrent probe batch, in batch order. -/
def batchEvents (fetchCheck : String → Bool) : List String → List ObsEvent
  | [] => []
  | e :: rest => probeEvents fetchCheck e ++ batchEvents fetchCheck rest

/-- Number of background tasks created along a trace. -/
def countTaskCreated : List ObsEvent → Nat
  | [] => 0
  | ObsEvent.taskCreated _ :: rest => countTaskCreated rest + 1
  | _ :: rest => countTaskCreated rest

/-- Concrete default endpoint used by the witnesses. -/
def dfltEp : String := "https://acct.example"

/-- Concrete stand-in for `LocationCache.GetLocationalEndpoint`.  Modelled
from the spec: the location cache source is not part of this snapshot; the
spec only requires a pure transform from (default endpoint, location name)
to a locational endpoint. -/
def catLoc : String → String → String := fun d l => d ++ "/" ++ l

/-- A network in which every endpoint is unreachable. -/
def noFetch : String → Option DatabaseAccount := fun _ => none

/-- A network in which only the East US locational endpoint answers. -/
def eastOnlyFetch : String → Option DatabaseAccount := fun ep =>
  if ep = catLoc dfltEp "East US" then some { ident := 7 } else none

/-- A health-probe network in which every endpoint fails its check. -/
def noCheck : String → Bool := fun _ => false

theorem countTaskCreated_append (a b : List ObsEvent) :
    countTaskCreated (a ++ b) = countTaskCreated a + countTaskCreated b := by
  induction a with
  | nil => simp [countTaskCreated]
  | cons e rest ih =>
    cases e <;> simp [countTaskCreated, ih, Nat.add_right_comm]

theorem fallback_win (fetch : String → Option DatabaseAccount)
    (getLoc : String → String → String) (d won : String) (post : List String)
    (acct : DatabaseAccount) (hwon : fetch (getLoc d won) = some acct) :
    ∀ (pre : List String), (∀ l ∈ pre, fetch (getLoc d l) = none) →
    ∀ (pl : List String) (ri : Nat) (st : Bool) (rt : Option AsyncTask)
      (rn : Bool) (lt : Nat) (dc : Option DatabaseAccount) (ev : List ObsEvent),
      GetDatabaseAccountFallback fetch getLoc (pre ++ won :: post)
          ⟨pl, d, ri, st, rt, rn, lt, dc, ev⟩ =
        (some (acct, getLoc d won),
         ⟨pl, d, ri, st, rt, rn, lt, some acct,
          ev ++ unavailTrail getLoc d pre ++ [ObsEvent.markAvailable (getLoc d won)]⟩) := by
  intro pre
  induction pre with
  | nil =>
    intro _ pl ri st rt rn lt dc ev
    simp [GetDatabaseAccountFallback, hwon, unavailTrail]
  | cons l rest ih =>
    intro hpre pl ri st rt rn lt dc ev
    have hl : fetch (getLoc d l) = none := hpre l (List.mem_cons_self l rest)
    have hrest : ∀ x ∈ rest, fetch (getLoc d x) = none :=
      fun x hx => hpre x (List.mem_cons_of_mem l hx)
    simp only [List.cons_append, GetDatabaseAccountFallback, hl, List.append_eq]
    rw [show markUnavailableRW ⟨pl, d, ri, st, rt, rn, lt, dc, ev⟩ (getLoc d l) =
        ⟨pl, d, ri, st, rt, rn, lt, dc,
         ev ++ [ObsEvent.markUnavailableRead (getLoc d l) false]
            ++ [ObsEvent.markUnavailableWrite (getLoc d l) false]⟩ from rfl]
    rw [ih hrest]
    simp [unavailTrail, unavailRW, List.append_assoc]

theorem fallback_fail (fetch : String → Option DatabaseAccount)
    (getLoc : String → String → String) (d : String) :
    ∀ (locs : List String), (∀ l ∈ locs, fetch (getLoc d l) = none) →
    ∀ (pl : List String) (ri : Nat) (st : Bool) (rt : Option AsyncTask)
      (rn : Bool) (lt : Nat) (dc : Option DatabaseAccount) (ev : List ObsEvent),
      GetDatabaseAccountFallback fetch getLoc locs ⟨pl, d, ri, st, rt, rn, lt, dc, ev⟩ =
        (none, ⟨pl, d, ri, st, rt, rn, lt, dc, ev ++ unavailTrail getLoc d locs⟩) := by
  intro locs
  induction locs with
  | nil =>
    intro _ pl ri st rt rn lt dc ev
    simp [GetDatabaseAccountFallback, unavailTrail]
  | cons l rest ih =>
    intro hall pl ri st rt rn lt dc ev
    have hl : fetch (getLoc d l) = none := hall l (List.mem_cons_self l rest)
    have hrest : ∀ x ∈ rest, fetch (getLoc d x) = none :=
      fun x hx => hall x (List.mem_cons_of_mem l hx)
    simp only [GetDatabaseAccountFallback, hl]
    rw [show markUnavailableRW ⟨pl, d, ri, st, rt, rn, lt, dc, ev⟩ (getLoc d l) =
        ⟨pl, d, ri, st, rt, rn, lt, dc,
         ev ++ [ObsEvent.markUnavailableRead (getLoc d l) false]
            ++ [ObsEvent.markUnavailableWrite (getLoc d l) false]⟩ from rfl]
    rw [ih hrest]
    simp [unavailTrail, unavailRW, List.append_assoc]

theorem fallback_frame (fetch : String → Option DatabaseAccount)
    (getLoc : String → String → String) :
    ∀ (locs : List String) (s : GEMState),
      (GetDatabaseAccountFallback fetch getLoc locs s).snd.startup = s.startup
    ∧ (GetDatabaseAccountFallback fetch getLoc locs s).snd.refresh_needed = s.refresh_needed
    ∧ (GetDatabaseAccountFallback fetch getLoc locs s).snd.refresh_task = s.refresh_task
    ∧ (GetDatabaseAccountFallback fetch getLoc locs s).snd.last_refresh_time
        = s.last_refresh_time
    ∧ countTaskCreated (GetDatabaseAccountFallback fetch getLoc locs s).snd.events
        = countTaskCreated s.events := by
  intro locs
  induction locs with
  | nil =>
    intro s
    simp [GetDatabaseAccountFallback]
  | cons l rest ih =>
    intro s
    simp only [GetDatabaseAccountFallback]
    cases hf : fetch (getLoc s.DefaultEndpoint l) with
    | some acct =>
      simp [countTaskCreated_append, countTaskCreated]
    | none =>
      have h := ih (markUnavailableRW s (getLoc s.DefaultEndpoint l))
      simpa [markUnavailableRW, mark_endpoint_unavailable_for_read,
        mark_endpoint_unavailable_for_write, countTaskCreated_append,
        countTaskCreated] using h

theorem getDBA_frame (fetch : String → Option DatabaseAccount)
    (getLoc : String → String → String) (s : GEMState) :
      (GetDatabaseAccount fetch getLoc s).snd.startup = s.startup
    ∧ (GetDatabaseAccount fetch getLoc s).snd.refresh_needed = s.refresh_needed
    ∧ (GetDatabaseAccount fetch getLoc s).snd.refresh_task = s.refresh_task
    ∧ (GetDatabaseAccount fetch getLoc s).snd.last_refresh_time = s.last_refresh_time
    ∧ countTaskCreated (GetDatabaseAccount fetch getLoc s).snd.events
        = countTaskCreated s.events := by
  unfold GetDatabaseAccount
  cases hf : fetch s.DefaultEndpoint with
  | some acct =>
    simp [countTaskCreated_append, countTaskCreated]
  | none =>
    have h := fallback_frame fetch getLoc s.PreferredLocations
      (markUnavailableRW s s.DefaultEndpoint)
    simpa [markUnavailableRW, mark_endpoint_unavailable_for_read,
      mark_endpoint_unavailable_for_write, countTaskCreated_append,
      countTaskCreated] using h

theorem foldl_check_events (fetchCheck : String → Bool) :
    ∀ (eps : List String) (s : GEMState),
      eps.foldl (database_account_check fetchCheck) s =
        { s with events := s.events ++ batchEvents fetchCheck eps } := by
  intro eps
  induction eps with
  | nil =>
    intro s
    simp [batchEvents]
  | cons e rest ih =>
    intro s
    simp only [List.foldl_cons]
    rw [ih]
    cases hc : fetchCheck e with
    | true =>
      simp [database_account_check, hc, batchEvents, probeEvents, List.append_assoc]
    | false =>
      simp [database_account_check, hc, batchEvents, probeEvents, markUnavailableRW,
        mark_endpoint_unavailable_for_read, mark_endpoint_unavailable_for_write,
        unavailRW, List.append_assoc]

theorem batchEvents_no_task (fetchCheck : String → Bool) :
    ∀ (eps : List String), countTaskCreated (batchEvents fetchCheck eps) = 0 := by
  intro eps
  induction eps with
  | nil => simp [batchEvents, countTaskCreated]
  | cons e rest ih =>
    cases hc : fetchCheck e <;>
      simp [batchEvents, probeEvents, hc, unavailRW, countTaskCreated_append,
        countTaskCreated, ih]

theorem health_check_frame (fetch : String → Option DatabaseAccount)
    (fetchCheck : String → Bool) (getLoc : String → String → String)
    (epsToCheck : List String) (s : GEMState) :
      (endpoints_health_check fetch fetchCheck getLoc epsToCheck s).snd.startup = s.startup
    ∧ (endpoints_health_check fetch fetchCheck getLoc epsToCheck s).snd.refresh_needed
        = s.refresh_needed
    ∧ (endpoints_health_check fetch fetchCheck getLoc epsToCheck s).snd.refresh_task
        = s.refresh_task
    ∧ (endpoints_health_check fetch fetchCheck getLoc epsToCheck s).snd.last_refresh_time
        = s.last_refresh_time
    ∧ countTaskCreated (endpoints_health_check fetch fetchCheck getLoc epsToCheck s).snd.events
        = countTaskCreated s.events := by
  have hg := getDBA_frame fetch getLoc s
  unfold endpoints_health_check
  cases hres : GetDatabaseAccount fetch getLoc s with
  | mk r s1 =>
    rw [hres] at hg
    cases r with
    | none =>
      simpa using hg
    | some p =>
      cases p with
      | mk acct attempted =>
        simp only
        rw [foldl_check_events]
        simp [countTaskCreated_append, countTaskCreated, batchEvents_no_task]
        exact ⟨hg.1, hg.2.1, hg.2.2.1, hg.2.2.2.1, hg.2.2.2.2⟩

theorem slowPath_clears (now tid : Nat) (fetch : String → Option DatabaseAccount)
    (fetchCheck : String → Bool) (getLoc : String → String → String)
    (epsToCheck : List String) (shouldRefresh : Bool) (s : GEMState)
    (h : s.refresh_needed = true) :
    (refreshSlowPath now tid fetch fetchCheck getLoc epsToCheck shouldRefresh
      s).snd.refresh_needed = false := by
  obtain ⟨pl, de, ri, st, rt, rn, lt, dc, ev⟩ := s
  have h' : rn = true := h
  subst h'
  unfold refreshSlowPath
  cases st with
  | false =>
    simp
  | true =>
    simp only [Bool.or_true, if_true]
    have hframe := (health_check_frame fetch fetchCheck getLoc epsToCheck
      ⟨pl, de, ri, true, rt, false, now, dc, ev⟩).2.1
    cases hres : endpoints_health_check fetch fetchCheck getLoc epsToCheck
        ⟨pl, de, ri, true, rt, false, now, dc, ev⟩ with
    | mk b s2 =>
      rw [hres] at hframe
      simp only at hframe
      cases b <;> simp_all

theorem private_clears (now tid : Nat) (fetch : String → Option DatabaseAccount)
    (fetchCheck : String → Bool) (getLoc : String → String → String)
    (epsToCheck : List String) (shouldRefresh : Bool)
    (dba : Option DatabaseAccount) (s : GEMState)
    (h : s.refresh_needed = true) :
    (refresh_endpoint_list_private now tid fetch fetchCheck getLoc epsToCheck
      shouldRefresh dba s).snd.refresh_needed = false := by
  unfold refresh_endpoint_list_private
  cases dba with
  | none =>
    exact slowPath_clears now tid fetch fetchCheck getLoc epsToCheck shouldRefresh s h
  | some acct =>
    obtain ⟨pl, de, ri, st, rt, rn, lt, dc, ev⟩ := s
    have h' : rn = true := h
    subst h'
    cases st with
    | false => simp
    | true =>
      simpa using slowPath_clears now tid fetch fetchCheck getLoc epsToCheck shouldRefresh
        ⟨pl, de, ri, true, rt, true, lt, dc, ev⟩ rfl

theorem slowPath_fail_startup (now tid : Nat) (fetch : String → Option DatabaseAccount)
    (fetchCheck : String → Bool) (getLoc : String → String → String)
    (epsToCheck : List String) (shouldRefresh : Bool) (s : GEMState)
    (hfail : (refreshSlowPath now tid fetch fetchCheck getLoc epsToCheck shouldRefresh
      s).fst = false) :
    (refreshSlowPath now tid fetch fetchCheck getLoc epsToCheck shouldRefresh
      s).snd.startup = true := by
  obtain ⟨pl, de, ri, st, rt, rn, lt, dc, ev⟩ := s
  unfold refreshSlowPath at hfail ⊢
  cases hc : (shouldRefresh || rn) with
  | false =>
    rw [hc] at hfail
    simp at hfail
  | true =>
    rw [hc] at hfail
    cases st with
    | false =>
      simp at hfail
    | true =>
      have hframe := (health_check_frame fetch fetchCheck getLoc epsToCheck
        ⟨pl, de, ri, true, rt, false, now, dc, ev⟩).1
      cases hres : endpoints_health_check fetch fetchCheck getLoc epsToCheck
          ⟨pl, de, ri, true, rt, false, now, dc, ev⟩ with
      | mk b s2 =>
        rw [hres] at hframe
        cases b <;> simp_all

theorem private_fail_startup (now tid : Nat) (fetch : String → Option DatabaseAccount)
    (fetchCheck : String → Bool) (getLoc : String → String → String)
    (epsToCheck : List String) (shouldRefresh : Bool)
    (dba : Option DatabaseAccount) (s : GEMState)
    (hfail : (refresh_endpoint_list_private now tid fetch fetchCheck getLoc epsToCheck
      shouldRefresh dba s).fst = false) :
    (refresh_endpoint_list_private now tid fetch fetchCheck getLoc epsToCheck
      shouldRefresh dba s).snd.startup = true := by
  unfold refresh_endpoint_list_private at hfail ⊢
  cases dba with
  | none =>
    exact slowPath_fail_startup now tid fetch fetchCheck getLoc epsToCheck shouldRefresh s hfail
  | some acct =>
    cases hst : s.startup with
    | false =>
      rw [hst] at hfail
      simp at hfail
    | true =>
      rw [hst] at hfail
      simp only [reduceCtorEq, if_false] at hfail ⊢
      exact slowPath_fail_startup now tid fetch fetchCheck getLoc epsToCheck shouldRefresh s hfail

theorem slowPath_count (now tid : Nat) (fetch : String → Option DatabaseAccount)
    (fetchCheck : String → Bool) (getLoc : String → String → String)
    (epsToCheck : List String) (shouldRefresh : Bool) (s : GEMState) :
    countTaskCreated (refreshSlowPath now tid fetch fetchCheck getLoc epsToCheck
      shouldRefresh s).snd.events ≤ countTaskCreated s.events + 1 := by
  obtain ⟨pl, de, ri, st, rt, rn, lt, dc, ev⟩ := s
  unfold refreshSlowPath
  cases hc : (shouldRefresh || rn) with
  | false =>
    simp
  | true =>
    cases st with
    | false =>
      simp [countTaskCreated_append, countTaskCreated]
    | true =>
      have hframe := (health_check_frame fetch fetchCheck getLoc epsToCheck
        ⟨pl, de, ri, true, rt, false, now, dc, ev⟩).2.2.2.2
      cases hres : endpoints_health_check fetch fetchCheck getLoc epsToCheck
          ⟨pl, de, ri, true, rt, false, now, dc, ev⟩ with
      | mk b s2 =>
        rw [hres] at hframe
        simp only at hframe
        cases b <;> simp_all

theorem slowPath_count_startup (now tid : Nat) (fetch : String → Option DatabaseAccount)
    (fetchCheck : String → Bool) (getLoc : String → String → String)
    (epsToCheck : List String) (shouldRefresh : Bool) (s : GEMState)
    (hst : s.startup = true) :
    countTaskCreated (refreshSlowPath now tid fetch fetchCheck getLoc epsToCheck
      shouldRefresh s).snd.events = countTaskCreated s.events := by
  obtain ⟨pl, de, ri, st, rt, rn, lt, dc, ev⟩ := s
  have hst' : st = true := hst
  subst hst'
  unfold refreshSlowPath
  cases hc : (shouldRefresh || rn) with
  | false =>
    simp
  | true =>
    have hframe := (health_check_frame fetch fetchCheck getLoc epsToCheck
      ⟨pl, de, ri, true, rt, false, now, dc, ev⟩).2.2.2.2
    cases hres : endpoints_health_check fetch fetchCheck getLoc epsToCheck
        ⟨pl, de, ri, true, rt, false, now, dc, ev⟩ with
    | mk b s2 =>
      rw [hres] at hframe
      simp only at hframe
      cases b <;> simp_all

theorem private_count (now tid : Nat) (fetch : String → Option DatabaseAccount)
    (fetchCheck : String → Bool) (getLoc : String → String → String)
    (epsToCheck : List String) (shouldRefresh : Bool)
    (dba : Option DatabaseAccount) (s : GEMState) :
    countTaskCreated (refresh_endpoint_list_private now tid fetch fetchCheck getLoc
      epsToCheck shouldRefresh dba s).snd.events ≤ countTaskCreated s.events + 1 := by
  unfold refresh_endpoint_list_private
  cases dba with
  | none =>
    exact slowPath_count now tid fetch fetchCheck getLoc epsToCheck shouldRefresh s
  | some acct =>
    cases hst : s.startup with
    | false =>
      simp [countTaskCreated_append, countTaskCreated]
    | true =>
      simpa using slowPath_count now tid fetch fetchCheck getLoc epsToCheck shouldRefresh s

theorem private_count_startup (now tid : Nat) (fetch : String → Option DatabaseAccount)
    (fetchCheck : String → Bool) (getLoc : String → String → String)
    (epsToCheck : List String) (shouldRefresh : Bool)
    (dba : Option DatabaseAccount) (s : GEMState) (hst : s.startup = true) :
    countTaskCreated (refresh_endpoint_list_private now tid fetch fetchCheck getLoc
      epsToCheck shouldRefresh dba s).snd.events = countTaskCreated s.events := by
  unfold refresh_endpoint_list_private
  cases dba with
  | none =>
    exact slowPath_count_startup now tid fetch fetchCheck getLoc epsToCheck shouldRefresh s hst
  | some acct =>
    rw [hst]
    simp only [reduceCtorEq, if_false]
    exact slowPath_count_startup now tid fetch fetchCheck getLoc epsToCheck shouldRefresh s hst

theorem harvest_frame (s : GEMState) :
    (harvestTask s).startup = s.startup
  ∧ (harvestTask s).refresh_needed = s.refresh_needed
  ∧ (harvestTask s).last_refresh_time = s.last_refresh_time
  ∧ (harvestTask s).refresh_time_interval_in_ms = s.refresh_time_interval_in_ms
  ∧ countTaskCreated (harvestTask s).events = countTaskCreated s.events := by
  unfold harvestTask
  cases hrt : s.refresh_task with
  | none => simp
  | some t =>
    obtain ⟨tid0, st0⟩ := t
    cases st0 <;> simp [countTaskCreated_append, countTaskCreated]

theorem staleCheck_frame (now : Nat) (s : GEMState) :
    (staleCheck now s).startup = s.startup
  ∧ (staleCheck now s).events = s.events := by
  unfold staleCheck
  split <;> simp

theorem refresh_list_fail_startup (now tid : Nat) (fetch : String → Option DatabaseAccount)
    (fetchCheck : String → Bool) (getLoc : String → String → String)
    (epsToCheck : List String) (shouldRefresh : Bool)
    (dba : Option DatabaseAccount) (s : GEMState)
    (hfail : (refresh_endpoint_list now tid fetch fetchCheck getLoc epsToCheck
      shouldRefresh dba s).fst = false) :
    (refresh_endpoint_list now tid fetch fetchCheck getLoc epsToCheck
      shouldRefresh dba s).snd.startup = true := by
  unfold refresh_endpoint_list at hfail ⊢
  cases hrn : (staleCheck now (harvestTask s)).refresh_needed with
  | false =>
    simp only [hrn, Bool.false_eq_true, if_false] at hfail
    simp at hfail
  | true =>
    simp only [hrn, if_true, Bool.true_eq_false, if_false] at hfail ⊢
    exact private_fail_startup now tid fetch fetchCheck getLoc epsToCheck shouldRefresh dba
      (staleCheck now (harvestTask s)) hfail

theorem refresh_list_count_startup (now tid : Nat) (fetch : String → Option DatabaseAccount)
    (fetchCheck : String → Bool) (getLoc : String → String → String)
    (epsToCheck : List String) (shouldRefresh : Bool)
    (dba : Option DatabaseAccount) (s : GEMState) (hst : s.startup = true) :
    countTaskCreated (refresh_endpoint_list now tid fetch fetchCheck getLoc epsToCheck
      shouldRefresh dba s).snd.events = countTaskCreated s.events := by
  have hh := harvest_frame s
  have hsc := staleCheck_frame now (harvestTask s)
  unfold refresh_endpoint_list
  cases hrn : (staleCheck now (harvestTask s)).refresh_needed with
  | false =>
    simp only [hrn, Bool.false_eq_true, if_false]
    rw [hsc.2, hh.2.2.2.2]
  | true =>
    simp only [hrn, if_true, Bool.true_eq_false, if_false]
    rw [private_count_startup now tid fetch fetchCheck getLoc epsToCheck shouldRefresh dba
      (staleCheck now (harvestTask s)) (by rw [hsc.1, hh.1]; exact hst)]
    rw [hsc.2, hh.2.2.2.2]

theorem sections_idle (now : Nat) (fetch : String → Option DatabaseAccount)
    (fetchCheck : String → Bool) (getLoc : String → String → String)
    (epsToCheck : List String) (shouldRefresh : Bool) (dba : Option DatabaseAccount) :
    ∀ (n tid0 : Nat) (s : GEMState), s.refresh_needed = false →
      concurrentSections now fetch fetchCheck getLoc epsToCheck shouldRefresh dba n tid0 s
        = (List.replicate n false, s) := by
  intro n
  induction n with
  | zero =>
    intro tid0 s h
    simp [concurrentSections]
  | succ k ih =>
    intro tid0 s h
    simp [concurrentSections, lockedRefreshSection, h, ih, List.replicate_succ]

/-- A steady-state manager (first refresh already done) used by witnesses. -/
def stSteady : GEMState :=
  { initManager ["West US"] dfltEp 300000 with startup := false }

/-- C5 (amended): immediately after construction, `refresh_needed` is false
(not true as claimed), `last_refresh_time` is 0, `startup` is true, and
`refresh_task` is `None`. -/
theorem C5_init_state (preferredLocations : List String) (defaultEndpoint : String)
    (interval : Nat) :
    (initManager preferredLocations defaultEndpoint interval).refresh_needed = false
  ∧ (initManager preferredLocations defaultEndpoint interval).last_refresh_time = 0
  ∧ (initManager preferredLocations defaultEndpoint interval).startup = true
  ∧ (initManager preferredLocations defaultEndpoint interval).refresh_task = none :=
  ⟨rfl, rfl, rfl, rfl⟩

/-- C5 counterexample: the freshly constructed manager refutes the claim
that `refresh_needed` starts out true (`__init__` sets it to False), so the
claimed post-construction state does not hold. -/
theorem C5_counterexample :
    ¬ ((initManager ["West US", "East US"] dfltEp 300000).refresh_needed = true
      ∧ (initManager ["West US", "East US"] dfltEp 300000).last_refresh_time = 0
      ∧ (initManager ["West US", "East US"] dfltEp 300000).startup = true
      ∧ (initManager ["West US", "East US"] dfltEp 300000).refresh_task = none) := by
  decide

/-- C6 (amended): `mark_endpoint_unavailable_for_read` and
`mark_endpoint_unavailable_for_write` forward the endpoint and the
`refresh_now` flag to the location cache and leave the manager's
`refresh_needed` flag unchanged, for either value of the flag. -/
theorem C6_mark_unavailable (s : GEMState) (endpoint : String) (refresh_now : Bool) :
    (mark_endpoint_unavailable_for_read s endpoint refresh_now).refresh_needed
        = s.refresh_needed
  ∧ (mark_endpoint_unavailable_for_write s endpoint refresh_now).refresh_needed
        = s.refresh_needed
  ∧ (mark_endpoint_unavailable_for_read s endpoint refresh_now).events
        = s.events ++ [ObsEvent.markUnavailableRead endpoint refresh_now]
  ∧ (mark_endpoint_unavailable_for_write s endpoint refresh_now).events
        = s.events ++ [ObsEvent.markUnavailableWrite endpoint refresh_now] :=
  ⟨rfl, rfl, rfl, rfl⟩

/-- C6 counterexample: marking an endpoint unavailable with `refresh_now`
set does not set the manager's `refresh_needed` flag to true (the methods
only delegate to the location cache), refuting the claim at a concrete
state. -/
theorem C6_counterexample :
    ¬ ((mark_endpoint_unavailable_for_read (initManager ["West US"] dfltEp 300000)
        dfltEp true).refresh_needed = true)
  ∧ ¬ ((mark_endpoint_unavailable_for_write (initManager ["West US"] dfltEp 300000)
        dfltEp true).refresh_needed = true) := by
  decide

/-- C8: when a snapshot is supplied and the manager is not in startup, the
private refresh applies the snapshot to the location cache, clears
`refresh_needed`, stamps `last_refresh_time` with the current time, and
performs or schedules no probe (no task is created, no probe events occur,
`refresh_task` is unchanged). -/
theorem C8_fast_path (now tid : Nat) (fetch : String → Option DatabaseAccount)
    (fetchCheck : String → Bool) (getLoc : String → String → String)
    (epsToCheck : List String) (shouldRefresh : Bool) (acct : DatabaseAccount)
    (s : GEMState) (hs : s.startup = false) :
    refresh_endpoint_list_private now tid fetch fetchCheck getLoc epsToCheck
        shouldRefresh (some acct) s
      = (true, { s with
          events := s.events ++ [ObsEvent.performOnDatabaseAccountRead acct]
          refresh_needed := false
          last_refresh_time := now }) := by
  unfold refresh_endpoint_list_private
  rw [hs]
  simp

/-- C8 witness: the fast path evaluated at a concrete steady-state manager
and snapshot. -/
theorem C8_fast_path_witness :
    refresh_endpoint_list_private 42 1 noFetch noCheck catLoc [] false
        (some ⟨3⟩) stSteady
      = (true, { stSteady with
          events := stSteady.events ++ [ObsEvent.performOnDatabaseAccountRead ⟨3⟩]
          refresh_needed := false
          last_refresh_time := 42 }) :=
  C8_fast_path 42 1 noFetch noCheck catLoc [] false ⟨3⟩ stSteady rfl

/-- A network in which every endpoint answers with account 1. -/
def okFetch : String → Option DatabaseAccount := fun _ => some { ident := 1 }

/-- The account returned by the East US endpoint in the witness network. -/
def acctEast : DatabaseAccount := { ident := 7 }

/-- Freshly constructed manager with preferred locations West US, East US. -/
def stC1 : GEMState := initManager ["West US", "East US"] dfltEp 300000

/-- C1: in `_GetDatabaseAccount`, the default endpoint is attempted first;
on its failure it is marked unavailable for read and write and the
preferred locations are attempted in declared order via their locational
endpoints, every failed one marked unavailable for read and write; the
first successful fetch's snapshot and endpoint are returned with no later
location attempted (the trace ends at the winner); if every candidate
fails, the error propagates. -/
theorem C1_fallback_order (fetch : String → Option DatabaseAccount)
    (getLoc : String → String → String) (s : GEMState)
    (hdef : fetch s.DefaultEndpoint = none) :
    (∀ (pre : List String) (won : String) (post : List String) (acct : DatabaseAccount),
       s.PreferredLocations = pre ++ won :: post →
       (∀ l ∈ pre, fetch (getLoc s.DefaultEndpoint l) = none) →
       fetch (getLoc s.DefaultEndpoint won) = some acct →
       GetDatabaseAccount fetch getLoc s =
         (some (acct, getLoc s.DefaultEndpoint won),
          { s with database_account_cache := some acct
                   events := s.events ++ unavailRW s.DefaultEndpoint
                     ++ unavailTrail getLoc s.DefaultEndpoint pre
                     ++ [ObsEvent.markAvailable (getLoc s.DefaultEndpoint won)] }))
  ∧ ((∀ l ∈ s.PreferredLocations, fetch (getLoc s.DefaultEndpoint l) = none) →
       (GetDatabaseAccount fetch getLoc s).fst = none) := by
  obtain ⟨pl, de, ri, st, rt, rn, lt, dc, ev⟩ := s
  have hdef' : fetch de = none := hdef
  constructor
  · intro pre won post acct hlocs hpre hwon
    have hpl : pl = pre ++ won :: post := hlocs
    subst hpl
    unfold GetDatabaseAccount
    simp only [hdef']
    rw [show markUnavailableRW ⟨pre ++ won :: post, de, ri, st, rt, rn, lt, dc, ev⟩ de =
        ⟨pre ++ won :: post, de, ri, st, rt, rn, lt, dc,
         ev ++ [ObsEvent.markUnavailableRead de false]
            ++ [ObsEvent.markUnavailableWrite de false]⟩ from rfl]
    rw [fallback_win fetch getLoc de won post acct hwon pre hpre]
    simp [unavailRW, List.append_assoc]
  · intro hall
    unfold GetDatabaseAccount
    simp only [hdef']
    rw [show markUnavailableRW ⟨pl, de, ri, st, rt, rn, lt, dc, ev⟩ de =
        ⟨pl, de, ri, st, rt, rn, lt, dc,
         ev ++ [ObsEvent.markUnavailableRead de false]
            ++ [ObsEvent.markUnavailableWrite de false]⟩ from rfl]
    rw [fallback_fail fetch getLoc de pl hall]

/-- C1 witness: with the default endpoint unreachable and preferred
locations West US then East US where only East US answers, the result is
East US's account and endpoint, and the trace marks the default endpoint
and West US unavailable for read and write and nothing after the winner. -/
theorem C1_witness :
    GetDatabaseAccount eastOnlyFetch catLoc stC1 =
      (some (acctEast, catLoc stC1.DefaultEndpoint "East US"),
       { stC1 with database_account_cache := some acctEast
                   events := stC1.events ++ unavailRW stC1.DefaultEndpoint
                     ++ unavailTrail catLoc stC1.DefaultEndpoint ["West US"]
                     ++ [ObsEvent.markAvailable (catLoc stC1.DefaultEndpoint "East US")] }) :=
  (C1_fallback_order eastOnlyFetch catLoc stC1 (by decide)).1
    ["West US"] "East US" [] acctEast rfl (by decide) (by decide)

theorem fallback_success_mem (fetch : String → Option DatabaseAccount)
    (getLoc : String → String → String) :
    ∀ (locs : List String) (s : GEMState) (acct : DatabaseAccount) (ep : String)
      (s2 : GEMState),
      GetDatabaseAccountFallback fetch getLoc locs s = (some (acct, ep), s2) →
      s2.database_account_cache = some acct ∧ ObsEvent.markAvailable ep ∈ s2.events := by
  intro locs
  induction locs with
  | nil =>
    intro s acct ep s2 h
    simp [GetDatabaseAccountFallback] at h
  | cons l rest ih =>
    intro s acct ep s2 h
    cases hf : fetch (getLoc s.DefaultEndpoint l) with
    | some a =>
      simp only [GetDatabaseAccountFallback, hf, Prod.mk.injEq, Option.some.injEq] at h
      obtain ⟨⟨ha, hep⟩, hs2⟩ := h
      subst ha
      subst hep
      subst hs2
      exact ⟨rfl, by simp⟩
    | none =>
      simp only [GetDatabaseAccountFallback, hf] at h
      exact ih _ acct ep s2 h

/-- C10: whenever `_GetDatabaseAccount` succeeds against any candidate
endpoint (default or a preferred location's), the returned state has the
snapshot stored in `_database_account_cache` and the winning endpoint
marked available in the location cache. -/
theorem C10_success_records (fetch : String → Option DatabaseAccount)
    (getLoc : String → String → String) (s : GEMState) (acct : DatabaseAccount)
    (ep : String) (s2 : GEMState)
    (h : GetDatabaseAccount fetch getLoc s = (some (acct, ep), s2)) :
    s2.database_account_cache = some acct ∧ ObsEvent.markAvailable ep ∈ s2.events := by
  unfold GetDatabaseAccount at h
  cases hf : fetch s.DefaultEndpoint with
  | some a =>
    simp only [hf, Prod.mk.injEq, Option.some.injEq] at h
    obtain ⟨⟨ha, hep⟩, hs2⟩ := h
    subst ha
    subst hep
    subst hs2
    exact ⟨rfl, by simp⟩
  | none =>
    simp only [hf] at h
    exact fallback_success_mem fetch getLoc s.PreferredLocations _ acct ep s2 h

/-- C10 witness: the fallback success against East US leaves the snapshot
cached and East US's endpoint marked available. -/
theorem C10_witness :
    (GetDatabaseAccount eastOnlyFetch catLoc stC1).snd.database_account_cache = some acctEast
  ∧ ObsEvent.markAvailable (catLoc dfltEp "East US")
      ∈ (GetDatabaseAccount eastOnlyFetch catLoc stC1).snd.events :=
  C10_success_records eastOnlyFetch catLoc stC1 acctEast (catLoc dfltEp "East US")
    (GetDatabaseAccount eastOnlyFetch catLoc stC1).snd (by decide)

/-- Fresh startup manager used by the C2 scenarios. -/
def stC2 : GEMState := initManager ["West US"] dfltEp 300000

/-- C2 (amended): when the startup refresh succeeds,
`force_refresh_on_startup` leaves `startup` false; when it raises, the
error propagates and `startup` remains true; in startup the refresh runs
synchronously (no background task is created by the call). -/
theorem C2_force_refresh (now tid : Nat) (fetch : String → Option DatabaseAccount)
    (fetchCheck : String → Bool) (getLoc : String → String → String)
    (epsToCheck : List String) (shouldRefresh : Bool)
    (dba : Option DatabaseAccount) (s : GEMState) :
    ((force_refresh_on_startup now tid fetch fetchCheck getLoc epsToCheck shouldRefresh
        dba s).fst = true →
      (force_refresh_on_startup now tid fetch fetchCheck getLoc epsToCheck shouldRefresh
        dba s).snd.startup = false)
  ∧ ((force_refresh_on_startup now tid fetch fetchCheck getLoc epsToCheck shouldRefresh
        dba s).fst = false →
      (force_refresh_on_startup now tid fetch fetchCheck getLoc epsToCheck shouldRefresh
        dba s).snd.startup = true)
  ∧ (s.startup = true →
      countTaskCreated (force_refresh_on_startup now tid fetch fetchCheck getLoc epsToCheck
        shouldRefresh dba s).snd.events = countTaskCreated s.events) := by
  unfold force_refresh_on_startup
  cases hres : refresh_endpoint_list now tid fetch fetchCheck getLoc epsToCheck shouldRefresh
      dba { s with refresh_needed := true } with
  | mk b s1 =>
    cases b with
    | true =>
      refine ⟨fun _ => rfl, fun hcontra => by simp at hcontra, fun hst => ?_⟩
      have hc := refresh_list_count_startup now tid fetch fetchCheck getLoc epsToCheck
        shouldRefresh dba { s with refresh_needed := true } (by simpa using hst)
      rw [hres] at hc
      simpa using hc
    | false =>
      refine ⟨fun hcontra => by simp at hcontra, fun _ => ?_, fun hst => ?_⟩
      · have hfs := refresh_list_fail_startup now tid fetch fetchCheck getLoc epsToCheck
          shouldRefresh dba { s with refresh_needed := true } (by rw [hres])
        rw [hres] at hfs
        simpa using hfs
      · have hc := refresh_list_count_startup now tid fetch fetchCheck getLoc epsToCheck
          shouldRefresh dba { s with refresh_needed := true } (by simpa using hst)
        rw [hres] at hc
        simpa using hc

/-- C2 witness: a successful startup refresh ends with `startup` false and
creates no background task; a failing one ends with `startup` true. -/
theorem C2_witness :
    (force_refresh_on_startup 0 1 okFetch noCheck catLoc [] false none stC2).snd.startup = false
  ∧ (force_refresh_on_startup 0 1 noFetch noCheck catLoc [] false none stC2).snd.startup = true
  ∧ countTaskCreated (force_refresh_on_startup 0 1 okFetch noCheck catLoc [] false none
      stC2).snd.events = countTaskCreated stC2.events :=
  ⟨(C2_force_refresh 0 1 okFetch noCheck catLoc [] false none stC2).1 (by decide),
   (C2_force_refresh 0 1 noFetch noCheck catLoc [] false none stC2).2.1 (by decide),
   (C2_force_refresh 0 1 okFetch noCheck catLoc [] false none stC2).2.2 rfl⟩

/-- C2 counterexample: with every endpoint unreachable the startup refresh
raises, `force_refresh_on_startup` propagates the error, and `startup` is
still true afterwards — refuting the claim that `startup` is false
regardless of outcome. -/
theorem C2_counterexample :
    (force_refresh_on_startup 0 1 noFetch noCheck catLoc [] false none stC2).fst = false
  ∧ (force_refresh_on_startup 0 1 noFetch noCheck catLoc [] false none stC2).snd.startup
      = true := by
  decide

/-- Steady-state manager with a finished, successful background task. -/
def stDoneOk : GEMState :=
  { initManager ["West US"] dfltEp 300000 with
    startup := false
    refresh_task := some { tid := 4, status := TaskStatus.doneOk } }

/-- Steady-state manager with a finished, failed background task. -/
def stDoneErr : GEMState :=
  { initManager ["West US"] dfltEp 300000 with
    startup := false
    refresh_task := some { tid := 4, status := TaskStatus.doneErr } }

/-- C4 (amended): when a previous background task has finished,
`refresh_endpoint_list` collects it; a raised exception is logged and
discarded (it does not propagate), but the handle is cleared only in the
success case — after an exception `refresh_task` keeps the old handle. -/
theorem C4_harvest (now tid : Nat) (fetch : String → Option DatabaseAccount)
    (fetchCheck : String → Bool) (getLoc : String → String → String)
    (epsToCheck : List String) (shouldRefresh : Bool)
    (dba : Option DatabaseAccount) (taskId : Nat) (s : GEMState)
    (hr : s.refresh_needed = false)
    (ht : ¬ s.refresh_time_interval_in_ms < now - s.last_refresh_time) :
    (s.refresh_task = some { tid := taskId, status := TaskStatus.doneOk } →
      refresh_endpoint_list now tid fetch fetchCheck getLoc epsToCheck shouldRefresh dba s
        = (true, { s with refresh_task := none }))
  ∧ (s.refresh_task = some { tid := taskId, status := TaskStatus.doneErr } →
      refresh_endpoint_list now tid fetch fetchCheck getLoc epsToCheck shouldRefresh dba s
        = (true, { s with events := s.events ++ [ObsEvent.logException] })) := by
  obtain ⟨pl, de, ri, st, rt, rn, lt, dc, ev⟩ := s
  have hr' : rn = false := hr
  subst hr'
  have ht' : ¬ ri < now - lt := ht
  constructor
  · intro htask
    have hrt : rt = some { tid := taskId, status := TaskStatus.doneOk } := htask
    subst hrt
    simp [refresh_endpoint_list, harvestTask, staleCheck, ht']
  · intro htask
    have hrt : rt = some { tid := taskId, status := TaskStatus.doneErr } := htask
    subst hrt
    simp [refresh_endpoint_list, harvestTask, staleCheck, ht']

/-- C4 witness: harvesting a finished successful task clears the handle;
harvesting a finished failed task logs the exception, does not raise, and
keeps the handle. -/
theorem C4_witness :
    refresh_endpoint_list 0 9 noFetch noCheck catLoc [] false none stDoneOk
      = (true, { stDoneOk with refresh_task := none })
  ∧ refresh_endpoint_list 0 9 noFetch noCheck catLoc [] false none stDoneErr
      = (true, { stDoneErr with events := stDoneErr.events ++ [ObsEvent.logException] }) :=
  ⟨(C4_harvest 0 9 noFetch noCheck catLoc [] false none 4 stDoneOk rfl (by decide)).1 rfl,
   (C4_harvest 0 9 noFetch noCheck catLoc [] false none 4 stDoneErr rfl (by decide)).2 rfl⟩

/-- C4 counterexample: after collecting a finished task that raised, the
exception is discarded (the call returns normally) but `refresh_task` is
not set to `None` — it still holds the old handle, refuting the claim that
the handle is cleared in both the success and the exception case. -/
theorem C4_counterexample :
    (refresh_endpoint_list 0 9 noFetch noCheck catLoc [] false none stDoneErr).fst = true
  ∧ (refresh_endpoint_list 0 9 noFetch noCheck catLoc [] false none stDoneErr).snd.refresh_task
      = some { tid := 4, status := TaskStatus.doneErr } := by
  decide

/-- Steady-state manager with a pending refresh demand. -/
def stC3 : GEMState := { stSteady with refresh_needed := true }

/-- Steady-state manager with a pending refresh demand while a background
task is still running. -/
def stC3cex : GEMState :=
  { stSteady with
    refresh_needed := true
    refresh_task := some { tid := 0, status := TaskStatus.running } }

/-- C3 (amended): when N callers of `refresh_endpoint_list` queue on the
refresh lock with `refresh_needed` true, exactly the first executes the
private refresh (creating at most one new task); every later caller
observes `refresh_needed` false inside the lock and returns without
executing it. -/
theorem C3_single_winner (now : Nat) (fetch : String → Option DatabaseAccount)
    (fetchCheck : String → Bool) (getLoc : String → String → String)
    (epsToCheck : List String) (shouldRefresh : Bool)
    (dba : Option DatabaseAccount) (k tid0 : Nat) (s : GEMState)
    (h : s.refresh_needed = true) :
    (concurrentSections now fetch fetchCheck getLoc epsToCheck shouldRefresh dba
        (k + 1) tid0 s).fst = true :: List.replicate k false
  ∧ countTaskCreated (concurrentSections now fetch fetchCheck getLoc epsToCheck
        shouldRefresh dba (k + 1) tid0 s).snd.events
      ≤ countTaskCreated s.events + 1 := by
  have hclear := private_clears now tid0 fetch fetchCheck getLoc epsToCheck shouldRefresh dba s h
  have hcount := private_count now tid0 fetch fetchCheck getLoc epsToCheck shouldRefresh dba s
  have hidle := sections_idle now fetch fetchCheck getLoc epsToCheck shouldRefresh dba
    k (tid0 + 1)
    (refresh_endpoint_list_private now tid0 fetch fetchCheck getLoc epsToCheck
      shouldRefresh dba s).snd hclear
  constructor
  · simp [concurrentSections, lockedRefreshSection, h, hidle]
  · simp only [concurrentSections, lockedRefreshSection, h, if_true, hidle]
    exact hcount

/-- C3 witness: two queued callers with `refresh_needed` true — the first
executes the private refresh, the second returns without executing it, and
at most one task is created. -/
theorem C3_witness :
    (concurrentSections 0 noFetch noCheck catLoc [] false none 2 10 stC3).fst
        = true :: List.replicate 1 false
  ∧ countTaskCreated (concurrentSections 0 noFetch noCheck catLoc [] false none
        2 10 stC3).snd.events ≤ countTaskCreated stC3.events + 1 :=
  C3_single_winner 0 noFetch noCheck catLoc [] false none 1 10 stC3 rfl

/-- C3 counterexample: a single `refresh_endpoint_list` call made while the
previous background task is still running replaces it with a newly created
task — the previous task was never confirmed finished, refuting the claim
that a new background task is only created once the previous one has been
confirmed finished (and that at most one is in flight). -/
theorem C3_counterexample :
    stC3cex.refresh_task = some { tid := 0, status := TaskStatus.running }
  ∧ (refresh_endpoint_list 0 1 noFetch noCheck catLoc [] false none stC3cex).snd.refresh_task
      = some { tid := 1, status := TaskStatus.running }
  ∧ ObsEvent.taskCreated 1
      ∈ (refresh_endpoint_list 0 1 noFetch noCheck catLoc [] false none stC3cex).snd.events := by
  decide

/-- C7: in the concurrent batch phase of the health-check round, each probed
endpoint's outcome depends only on its own probe — success marks it
available, failure marks that endpoint unavailable for read and write
without raising or affecting the others — and the final
`update_location_cache` event comes only after every probe's events. -/
theorem C7_batch (fetch : String → Option DatabaseAccount)
    (fetchCheck : String → Bool) (getLoc : String → String → String)
    (epsToCheck : List String) (s : GEMState) (acct : DatabaseAccount)
    (attempted : String) (s1 : GEMState)
    (h : GetDatabaseAccount fetch getLoc s = (some (acct, attempted), s1)) :
    endpoints_health_check fetch fetchCheck getLoc epsToCheck s =
      (true, { s1 with events := s1.events
          ++ [ObsEvent.performOnDatabaseAccountRead acct]
          ++ batchEvents fetchCheck (epsToCheck.filter (fun e => e ≠ attempted))
          ++ [ObsEvent.updateLocationCache] }) := by
  unfold endpoints_health_check
  rw [h]
  simp only
  rw [foldl_check_events]

/-- C7 witness: a batch over one non-winning endpoint whose probe fails is
recorded as that endpoint marked unavailable for read and write, followed
by the final cache update. -/
theorem C7_witness :
    endpoints_health_check okFetch noCheck catLoc [dfltEp, catLoc dfltEp "West US"] stSteady
      = (true, { (GetDatabaseAccount okFetch catLoc stSteady).snd with
          events := (GetDatabaseAccount okFetch catLoc stSteady).snd.events
            ++ [ObsEvent.performOnDatabaseAccountRead { ident := 1 }]
            ++ batchEvents noCheck
                ([dfltEp, catLoc dfltEp "West US"].filter (fun e => e ≠ dfltEp))
            ++ [ObsEvent.updateLocationCache] }) :=
  C7_batch okFetch noCheck catLoc [dfltEp, catLoc dfltEp "West US"] stSteady
    { ident := 1 } dfltEp (GetDatabaseAccount okFetch catLoc stSteady).snd (by decide)

/-- C9 (amended): a call to `refresh_endpoint_list` made strictly later
than `last_refresh_time` plus the refresh interval sets `refresh_needed`
during the call; with no snapshot supplied (and not in startup) it
launches a new background probe task and stamps `last_refresh_time`; with
a snapshot supplied it applies the snapshot instead and creates no probe
task. -/
theorem C9_staleness (now tid : Nat) (fetch : String → Option DatabaseAccount)
    (fetchCheck : String → Bool) (getLoc : String → String → String)
    (epsToCheck : List String) (shouldRefresh : Bool) (s : GEMState)
    (h : s.refresh_time_interval_in_ms < now - s.last_refresh_time)
    (hst : s.startup = false) :
    (refresh_endpoint_list now tid fetch fetchCheck getLoc epsToCheck shouldRefresh
        none s).snd.refresh_task = some { tid := tid, status := TaskStatus.running }
  ∧ ObsEvent.taskCreated tid ∈ (refresh_endpoint_list now tid fetch fetchCheck getLoc
        epsToCheck shouldRefresh none s).snd.events
  ∧ (refresh_endpoint_list now tid fetch fetchCheck getLoc epsToCheck shouldRefresh
        none s).snd.last_refresh_time = now
  ∧ (refresh_endpoint_list now tid fetch fetchCheck getLoc epsToCheck shouldRefresh
        none s).snd.refresh_needed = false
  ∧ ∀ acct : DatabaseAccount,
      countTaskCreated (refresh_endpoint_list now tid fetch fetchCheck getLoc epsToCheck
        shouldRefresh (some acct) s).snd.events = countTaskCreated s.events := by
  obtain ⟨pl, de, ri, st, rt, rn, lt, dc, ev⟩ := s
  have hst' : st = false := hst
  subst hst'
  have h' : ri < now - lt := h
  rcases rt with _ | ⟨t0, ts⟩
  · refine ⟨?_, ?_, ?_, ?_, ?_⟩ <;>
      simp [refresh_endpoint_list, harvestTask, staleCheck, refresh_endpoint_list_private,
        refreshSlowPath, h', countTaskCreated_append, countTaskCreated]
  · cases ts <;>
      refine ⟨?_, ?_, ?_, ?_, ?_⟩ <;>
        simp [refresh_endpoint_list, harvestTask, staleCheck, refresh_endpoint_list_private,
          refreshSlowPath, h', countTaskCreated_append, countTaskCreated]

/-- C9 witness: at 300001 ms on a steady manager last refreshed at 0 with a
300000 ms interval, a no-snapshot call launches a background probe task,
while a snapshot call creates none. -/
theorem C9_witness :
    (refresh_endpoint_list 300001 2 noFetch noCheck catLoc [] false none
        stSteady).snd.refresh_task = some { tid := 2, status := TaskStatus.running }
  ∧ countTaskCreated (refresh_endpoint_list 300001 2 noFetch noCheck catLoc [] false
        (some { ident := 5 }) stSteady).snd.events = countTaskCreated stSteady.events :=
  ⟨(C9_staleness 300001 2 noFetch noCheck catLoc [] false stSteady (by decide) rfl).1,
   (C9_staleness 300001 2 noFetch noCheck catLoc [] false stSteady (by decide) rfl).2.2.2.2
     { ident := 5 }⟩

/-- C9 counterexample: a call made past the staleness bound but carrying a
snapshot triggers no probe round at all — no background task is created
and the only location-cache call is the snapshot application — refuting
the claim that every such call triggers a new probe round. -/
theorem C9_counterexample :
    (refresh_endpoint_list 300001 1 noFetch noCheck catLoc [] false
        (some { ident := 0 }) stSteady).snd.refresh_task = none
  ∧ countTaskCreated (refresh_endpoint_list 300001 1 noFetch noCheck catLoc [] false
        (some { ident := 0 }) stSteady).snd.events = 0
  ∧ (refresh_endpoint_list 300001 1 noFetch noCheck catLoc [] false
        (some { ident := 0 }) stSteady).snd.events
      = [ObsEvent.performOnDatabaseAccountRead { ident := 0 }] := by
  decide
